import Mathlib

/-!
Verification of the SubDomain-Sentinel takeover detection engine
(src/subsentinal.py) against its natural-language specification.

The Python source is shallowly embedded: pure fragments become Lean
functions, network-dependent steps (DNS resolution, HTTP and TLS probes)
are parameterized by oracle functions giving the outcome of each external
query, and Python integers become Lean Int (no overflow concerns arise:
all arithmetic stays far below machine bounds, and Python ints are
unbounded anyway).  Python string operations are modelled on the
character-list representation (Python str indexing, slicing, `in`,
startswith/endswith and lower are all per-character, matching List Char).
Python truthiness of optional strings (None and "" are falsy) is modelled
explicitly where the source relies on it.
-/

namespace SubSentinel

/-- Whether the first list is a prefix of the second, by character comparison
(used to model Python substring containment and startswith). -/
def charsHasPre : List Char → List Char → Bool
  | [], _ => true
  | _ :: _, [] => false
  | c :: cs, d :: ds => c == d && charsHasPre cs ds

/-- Whether the needle occurs contiguously anywhere in the haystack
(Python `needle in hay` on strings). -/
def charsHasSub (needle : List Char) : List Char → Bool
  | [] => needle.isEmpty
  | d :: ds => charsHasPre needle (d :: ds) || charsHasSub needle ds

/-- Python `needle in hay` for strings. -/
def strHasSub (hay needle : String) : Bool := charsHasSub needle.data hay.data

/-- Python str.lower (per-character). -/
def lowerStr (s : String) : String := ⟨s.data.map Char.toLower⟩

/-- Python `s[:n]` slicing, by code point. -/
def strTake (s : String) (n : Nat) : String := ⟨s.data.take n⟩

/-- Python `s[n:]` slicing, by code point. -/
def strDropN (s : String) (n : Nat) : String := ⟨s.data.drop n⟩

/-- Python str.startswith. -/
def strStarts (s pre : String) : Bool := charsHasPre pre.data s.data

/-- Python str.endswith. -/
def strEnds (s suf : String) : Bool := charsHasPre suf.data.reverse s.data.reverse

/-- Python truthiness of an optional string: None and the empty string are falsy. -/
def pyTruthy : Option String → Bool
  | some s => !(s == "")
  | none => false

/-- Rendering of an optional string inside a Python f-string
(None renders as "None"). -/
def optStr : Option String → String
  | some s => s
  | none => "None"

/-- TakeoverStatus enum (src/subsentinal.py lines 864-871). -/
inductive TakeoverStatus
  | CONFIRMED
  | HIGHLY_LIKELY
  | LIKELY
  | POSSIBLE
  | UNLIKELY
  | SAFE
  | ERROR
deriving DecidableEq, Repr

/-- RiskLevel enum (src/subsentinal.py lines 857-862). -/
inductive RiskLevel
  | CRITICAL
  | HIGH
  | MEDIUM
  | LOW
  | INFO
deriving DecidableEq, Repr

/-- SubdomainFinding dataclass (src/subsentinal.py lines 873-902).
The float field response_time and the datetime fields timestamp and
last_seen are omitted (wall-clock values, irrelevant to every claim), as is
wayback_urls (filled by the out-of-scope enumeration layer).  HTTP status
codes are Nat inside Option: Python uses None for absence. -/
structure SubdomainFinding where
  subdomain : String
  provider : Option String := none
  cname : Option String := none
  cname_chain : List String := []
  a_records : List String := []
  http_status : Option Nat := none
  https_status : Option Nat := none
  response_body : String := ""
  page_title : String := ""
  final_url : String := ""
  takeover_status : TakeoverStatus := TakeoverStatus.SAFE
  confidence : Int := 0
  evidence : List String := []
  verification_steps : List String := []
  is_live : Bool := false
  risk_level : RiskLevel := RiskLevel.INFO
  ns_records : List String := []
  ns_takeover : Bool := false
  ssl_mismatch : Bool := false
  ssl_cert_cn : Option String := none
  dangling_a_record : Bool := false
  header_fingerprint : Option String := none
deriving DecidableEq, Repr

/-- One PROVIDER_CONFIGS entry (src/subsentinal.py lines 92-580): the
per-provider detection data.  risk_level is kept as the source string. -/
structure ProviderConfig where
  cname_patterns : List String
  error_patterns : List String
  claimed_indicators : List String
  status_codes : List Nat
  takeover_url : String
  verification_method : String
  risk_level : String
  can_takeover : Bool
deriving DecidableEq, Repr

/-- PROVIDER_CONFIGS (src/subsentinal.py lines 92-580), in declaration
order; Python dicts preserve insertion order, so an association list is a
faithful model. -/
def PROVIDER_CONFIGS : List (String × ProviderConfig) := [
  ("github",
   { cname_patterns := [".github.io", ".github.com", "github.map.fastly.net"],
     error_patterns := ["There isn't a GitHub Pages site here.",
       "Project site could not be found", "Check your DNS settings",
       "This site is not configured"],
     claimed_indicators := ["This site is powered by GitHub Pages", "githubusercontent"],
     status_codes := [404, 410],
     takeover_url := "https://github.com/settings/pages",
     verification_method := "create_repo",
     risk_level := "HIGH", can_takeover := true }),
  ("aws_s3",
   { cname_patterns := [".s3.amazonaws.com", ".s3-website-", ".s3.",
       "s3.amazonaws.com", ".s3.dualstack."],
     error_patterns := ["NoSuchBucket", "The specified bucket does not exist",
       "PermanentRedirect", "InvalidBucketName", "BucketRegionError"],
     claimed_indicators := ["ListBucketResult", "IndexDocument", "Contents"],
     status_codes := [404, 403, 400],
     takeover_url := "https://s3.console.aws.amazon.com",
     verification_method := "create_bucket",
     risk_level := "CRITICAL", can_takeover := true }),
  ("cloudfront",
   { cname_patterns := [".cloudfront.net"],
     error_patterns := ["ERROR: The request could not be satisfied", "Bad request",
       "The distribution does not exist", "CloudFront error"],
     claimed_indicators := [],
     status_codes := [404, 403, 400],
     takeover_url := "https://console.aws.amazon.com/cloudfront",
     verification_method := "claim_distribution",
     risk_level := "CRITICAL", can_takeover := true }),
  ("heroku",
   { cname_patterns := [".herokuapp.com", ".herokudns.com"],
     error_patterns := ["no such app", "Heroku | No such app",
       "There's nothing here, yet.", "herokuapp.com"],
     claimed_indicators := ["heroku", "Heroku"],
     status_codes := [404],
     takeover_url := "https://dashboard.heroku.com",
     verification_method := "create_app",
     risk_level := "HIGH", can_takeover := true }),
  ("vercel",
   { cname_patterns := [".vercel.app", ".now.sh", ".zeit.co"],
     error_patterns := ["The deployment could not be found", "The deployment not found",
       "deployment not found (404)", "This deployment could not be found"],
     claimed_indicators := ["Vercel", "Powered by Vercel"],
     status_codes := [404],
     takeover_url := "https://vercel.com/dashboard",
     verification_method := "create_deployment",
     risk_level := "HIGH", can_takeover := true }),
  ("netlify",
   { cname_patterns := [".netlify.app", ".netlify.com"],
     error_patterns := ["Not found - Request ID",
       "The page you are looking for doesn't exist", "Site not found", "Netlify error"],
     claimed_indicators := ["Netlify", "Deploys by Netlify"],
     status_codes := [404],
     takeover_url := "https://app.netlify.com",
     verification_method := "create_site",
     risk_level := "HIGH", can_takeover := true }),
  ("firebase",
   { cname_patterns := [".web.app", ".firebaseapp.com"],
     error_patterns := ["The requested URL was not found on this server",
       "Firebase Hosting Setup", "Site not found"],
     claimed_indicators := ["Firebase", "Hosting by Firebase"],
     status_codes := [404],
     takeover_url := "https://console.firebase.google.com",
     verification_method := "create_hosting",
     risk_level := "HIGH", can_takeover := true }),
  ("azure",
   { cname_patterns := [".azurewebsites.net", ".azureedge.net", ".azure-api.net",
       ".blob.core.windows.net"],
     error_patterns := ["The site you are looking for cannot be found",
       "The resource you are looking for has been removed",
       "No web app is configured at this URL", "Azure error"],
     claimed_indicators := ["Microsoft Azure", "App Service"],
     status_codes := [404],
     takeover_url := "https://portal.azure.com",
     verification_method := "create_resource",
     risk_level := "HIGH", can_takeover := true }),
  ("cloudflare",
   { cname_patterns := [".workers.dev", ".pages.dev", "cloudflare.net"],
     error_patterns := ["Worker not found", "This worker is not currently deployed",
       "404 Not Found", "Cloudflare error"],
     claimed_indicators := ["Cloudflare", "Workers"],
     status_codes := [404],
     takeover_url := "https://dash.cloudflare.com",
     verification_method := "create_worker",
     risk_level := "MEDIUM", can_takeover := false }),
  ("fastly",
   { cname_patterns := [".fastly.net", ".fastly.map.fastly.net"],
     error_patterns := ["Fastly error: unknown domain",
       "Please check that this domain has been added to a service", "Fastly error"],
     claimed_indicators := ["Fastly"],
     status_codes := [404],
     takeover_url := "https://manage.fastly.com",
     verification_method := "claim_domain",
     risk_level := "MEDIUM", can_takeover := true }),
  ("shopify",
   { cname_patterns := [".myshopify.com", "shops.myshopify.com"],
     error_patterns := ["Sorry, this shop is currently unavailable", "Only one step left!",
       "Sorry, this shop is currently unavailable."],
     claimed_indicators := ["Shopify", "shopify"],
     status_codes := [404],
     takeover_url := "https://partners.shopify.com",
     verification_method := "create_store",
     risk_level := "HIGH", can_takeover := true }),
  ("tumblr",
   { cname_patterns := [".tumblr.com", "domains.tumblr.com"],
     error_patterns := ["There's nothing here.",
       "Whatever you were looking for doesn't currently exist at this address",
       "Not found."],
     claimed_indicators := ["Tumblr", "tumblr"],
     status_codes := [404],
     takeover_url := "https://www.tumblr.com/register",
     verification_method := "create_blog",
     risk_level := "HIGH", can_takeover := true }),
  ("wordpress",
   { cname_patterns := [".wordpress.com"],
     error_patterns := ["Do you want to register", "doesn't exist"],
     claimed_indicators := ["WordPress.com"],
     status_codes := [404],
     takeover_url := "https://wordpress.com",
     verification_method := "create_site",
     risk_level := "HIGH", can_takeover := true }),
  ("pantheon",
   { cname_patterns := [".pantheonsite.io", ".pantheon.io"],
     error_patterns := ["404 error unknown site!", "The gods are wise",
       "You don't have a site configured at this hostname"],
     claimed_indicators := ["Pantheon"],
     status_codes := [404],
     takeover_url := "https://dashboard.pantheon.io",
     verification_method := "create_site",
     risk_level := "HIGH", can_takeover := true }),
  ("surge",
   { cname_patterns := [".surge.sh"],
     error_patterns := ["project not found", "To learn more about Surge"],
     claimed_indicators := ["Surge"],
     status_codes := [404],
     takeover_url := "https://surge.sh",
     verification_method := "surge_publish",
     risk_level := "MEDIUM", can_takeover := true }),
  ("bitbucket",
   { cname_patterns := [".bitbucket.io", ".bitbucket.org"],
     error_patterns := ["Repository not found",
       "The page you have requested does not exist"],
     claimed_indicators := ["Bitbucket", "Atlassian"],
     status_codes := [404],
     takeover_url := "https://bitbucket.org",
     verification_method := "create_repo",
     risk_level := "HIGH", can_takeover := true }),
  ("gitlab",
   { cname_patterns := [".gitlab.io"],
     error_patterns := ["The page you're looking for could not be found",
       "Isn't this a great place for your new project"],
     claimed_indicators := ["GitLab"],
     status_codes := [404],
     takeover_url := "https://gitlab.com",
     verification_method := "create_pages",
     risk_level := "HIGH", can_takeover := true }),
  ("fly_io",
   { cname_patterns := [".fly.dev", ".edgeapp.net"],
     error_patterns := ["404 Not Found", "This site doesn't exist yet"],
     claimed_indicators := ["Fly.io"],
     status_codes := [404],
     takeover_url := "https://fly.io/dashboard",
     verification_method := "create_app",
     risk_level := "MEDIUM", can_takeover := true }),
  ("render",
   { cname_patterns := [".onrender.com"],
     error_patterns := ["Not Found", "This page could not be found"],
     claimed_indicators := ["Render"],
     status_codes := [404],
     takeover_url := "https://dashboard.render.com",
     verification_method := "create_service",
     risk_level := "MEDIUM", can_takeover := true }),
  ("cargo",
   { cname_patterns := [".cargo.site", ".cargocollective.com"],
     error_patterns := ["404 Not Found", "If you're moving your domain away from Cargo"],
     claimed_indicators := ["Cargo"],
     status_codes := [404],
     takeover_url := "https://cargo.site",
     verification_method := "create_site",
     risk_level := "MEDIUM", can_takeover := true }),
  ("zendesk",
   { cname_patterns := [".zendesk.com", ".zendesk.io"],
     error_patterns := ["Help Center Closed", "This help center no longer exists",
       "Oops, this help center no longer exists"],
     claimed_indicators := ["Zendesk"],
     status_codes := [404],
     takeover_url := "https://www.zendesk.com",
     verification_method := "create_subdomain",
     risk_level := "MEDIUM", can_takeover := true }),
  ("ghost",
   { cname_patterns := [".ghost.io", ".ghost.org"],
     error_patterns := ["The thing you were looking for is no longer here",
       "404 — Page not found"],
     claimed_indicators := ["Ghost", "Powered by Ghost"],
     status_codes := [404],
     takeover_url := "https://ghost.org",
     verification_method := "create_site",
     risk_level := "HIGH", can_takeover := true }),
  ("desk",
   { cname_patterns := [".desk.com"],
     error_patterns := ["Please try again or try Desk.com free",
       "Sorry, We Couldn't Find That Page"],
     claimed_indicators := ["Desk.com"],
     status_codes := [404],
     takeover_url := "https://www.desk.com",
     verification_method := "create_site",
     risk_level := "MEDIUM", can_takeover := true }),
  ("unbounce",
   { cname_patterns := [".unbounce.com", "unbouncepages.com"],
     error_patterns := ["The requested URL was not found on this server",
       "The page you were looking for doesn't exist"],
     claimed_indicators := ["Unbounce"],
     status_codes := [404],
     takeover_url := "https://unbounce.com",
     verification_method := "create_page",
     risk_level := "HIGH", can_takeover := true }),
  ("tilda",
   { cname_patterns := [".tilda.ws", "tilda.cc"],
     error_patterns := ["Please renew your subscription", "Domain is not configured"],
     claimed_indicators := ["Tilda"],
     status_codes := [404],
     takeover_url := "https://tilda.cc",
     verification_method := "create_site",
     risk_level := "MEDIUM", can_takeover := true }),
  ("helpscout",
   { cname_patterns := [".helpscoutdocs.com", "docs.helpscout.net"],
     error_patterns := ["No settings were found for this company",
       "This page is reserved for a Help Scout"],
     claimed_indicators := ["Help Scout"],
     status_codes := [404],
     takeover_url := "https://www.helpscout.com",
     verification_method := "create_site",
     risk_level := "MEDIUM", can_takeover := true }),
  ("uservoice",
   { cname_patterns := [".uservoice.com"],
     error_patterns := ["This UserVoice subdomain is currently available",
       "You're almost there"],
     claimed_indicators := ["UserVoice"],
     status_codes := [404],
     takeover_url := "https://www.uservoice.com",
     verification_method := "create_forum",
     risk_level := "HIGH", can_takeover := true }),
  ("readme",
   { cname_patterns := [".readme.io", "readme.com"],
     error_patterns := ["Project doesnt exist", "Project not found"],
     claimed_indicators := ["ReadMe"],
     status_codes := [404],
     takeover_url := "https://readme.com",
     verification_method := "create_project",
     risk_level := "MEDIUM", can_takeover := true }),
  ("strikingly",
   { cname_patterns := [".strikinglydns.com", ".s.strikinglydns.com"],
     error_patterns := ["But if you're looking to build your own website",
       "page not found"],
     claimed_indicators := ["Strikingly"],
     status_codes := [404],
     takeover_url := "https://www.strikingly.com",
     verification_method := "create_site",
     risk_level := "HIGH", can_takeover := true }),
  ("launchrock",
   { cname_patterns := [".launchrock.com"],
     error_patterns := ["It looks like you may have taken a wrong turn somewhere"],
     claimed_indicators := ["LaunchRock"],
     status_codes := [404],
     takeover_url := "https://www.launchrock.com",
     verification_method := "create_site",
     risk_level := "MEDIUM", can_takeover := true }),
  ("feedpress",
   { cname_patterns := ["redirect.feedpress.me", ".feedpress.me"],
     error_patterns := ["The feed has not been found", "This feed does not exist"],
     claimed_indicators := ["Feedpress"],
     status_codes := [404],
     takeover_url := "https://feed.press",
     verification_method := "create_feed",
     risk_level := "MEDIUM", can_takeover := true }),
  ("teamwork",
   { cname_patterns := [".teamwork.com"],
     error_patterns := ["Oops - We didn't find your site",
       "There is no such site on our platform"],
     claimed_indicators := ["Teamwork"],
     status_codes := [404],
     takeover_url := "https://www.teamwork.com",
     verification_method := "create_site",
     risk_level := "MEDIUM", can_takeover := true }),
  ("kinsta",
   { cname_patterns := [".kinsta.cloud", ".kinsta.com"],
     error_patterns := ["No site is currently installed here",
       "The site you are looking for could not be found"],
     claimed_indicators := ["Kinsta"],
     status_codes := [404],
     takeover_url := "https://kinsta.com",
     verification_method := "create_site",
     risk_level := "HIGH", can_takeover := true }),
  ("agilecrm",
   { cname_patterns := [".agilecrm.com"],
     error_patterns := ["Sorry, this page is no longer available"],
     claimed_indicators := ["Agile CRM"],
     status_codes := [404],
     takeover_url := "https://www.agilecrm.com",
     verification_method := "create_portal",
     risk_level := "MEDIUM", can_takeover := true }),
  ("uptimerobot",
   { cname_patterns := [".uptimerobot.com", "stats.uptimerobot.com"],
     error_patterns := ["page not found",
       "This public status page is no longer available"],
     claimed_indicators := ["UptimeRobot"],
     status_codes := [404],
     takeover_url := "https://uptimerobot.com",
     verification_method := "create_status_page",
     risk_level := "LOW", can_takeover := true })]

/-- HEADER_FINGERPRINTS (src/subsentinal.py lines 583-596): provider name
to required header substring mapping; the empty expected value is a
presence-only entry. -/
def HEADER_FINGERPRINTS : List (String × List (String × String)) := [
  ("github", [("Server", "GitHub.com")]),
  ("heroku", [("Server", "Cowboy"), ("Via", "vegur")]),
  ("cloudfront", [("Server", "CloudFront")]),
  ("fastly", [("X-Served-By", "cache-")]),
  ("shopify", [("X-Sorting-Hat-ShopId", "")]),
  ("netlify", [("Server", "Netlify")]),
  ("vercel", [("Server", "Vercel")]),
  ("firebase", [("Server", "Google Frontend")]),
  ("azure", [("Server", "Microsoft-IIS")]),
  ("s3", [("Server", "AmazonS3")]),
  ("ghost", [("X-Powered-By", "Express"), ("X-Cache", "Ghost")]),
  ("zendesk", [("X-Zendesk-Origin-Server", "")])]

/-- Python PROVIDER_CONFIGS.get(name): lookup in declaration order. -/
def lookupConfig (name : String) : Option ProviderConfig :=
  (PROVIDER_CONFIGS.find? (fun p => p.1 == name)).map Prod.snd

/-!
DNS resolver layer (class DNSResolver, src/subsentinal.py lines 1020-1274).
Each network query is an oracle function: `next name` is the CNAME target a
single CNAME query for `name` returns (none on NXDOMAIN, NoAnswer, timeout
or any other failure — the Python code breaks out of the walk on any
exception).
-/

/-- CNAME chain walk of the dnspython fallback path
(DNSResolver.resolve_cname, src/subsentinal.py lines 1055-1074): starting
from the first CNAME answer, re-query up to 5 more hops (`for _ in
range(5)`), stop on a failed query or when the next target is already in
the chain (loop avoidance), appending each new target. -/
def followCnameChain (next : String → Option String) : Nat → String → List String → List String
  | 0, _, chain => chain
  | fuel + 1, cname, chain =>
    match next cname with
    | none => chain
    | some nc =>
      if nc ∈ chain then chain
      else followCnameChain next fuel nc (chain ++ [nc])

/-- DNSResolver.resolve_cname on the dnspython fallback path
(src/subsentinal.py lines 1055-1074), given the first answer `cname0` and
the per-name query oracle: the returned pair is (chain[0], chain). -/
def resolveCnameDnspython (next : String → Option String) (cname0 : String) :
    String × List String :=
  let chain := followCnameChain next 5 cname0 [cname0]
  (cname0, chain)

/-- Order-preserving duplicate removal with a seen set, as in the dig
+trace parse (src/subsentinal.py lines 1124-1130). -/
def dedupeAux (seen : List String) : List String → List String
  | [] => []
  | c :: cs => if c ∈ seen then dedupeAux seen cs else c :: dedupeAux (c :: seen) cs

/-- Duplicate removal of the dig +trace output parse
(DNSResolver._resolve_cname_with_dig, src/subsentinal.py lines 1124-1132):
keeps the first occurrence of each CNAME in order.  The parsed cname list
itself has no length cap. -/
def dedupeKeepFirst (cnames : List String) : List String := dedupeAux [] cnames

/-- CNAME chain walk of the simple-dig path
(DNSResolver._resolve_cname_with_dig, src/subsentinal.py lines 1150-1160):
follow up to 5 single-CNAME dig queries, stopping when a query fails or
returns the name itself; only the immediately previous name is compared,
so a longer cycle is not detected. -/
def digFollow (single : String → Option String) : Nat → String → List String → List String
  | 0, _, chain => chain
  | fuel + 1, cname, chain =>
    match single cname with
    | none => chain
    | some nc =>
      if nc != cname then digFollow single fuel nc (chain ++ [nc]) else chain

/-- Simple-dig chain result (src/subsentinal.py lines 1147-1160), given the
first +short answer `cname0`. -/
def resolveCnameDigSimple (single : String → Option String) (cname0 : String) :
    String × List String :=
  let chain := digFollow single 5 cname0 [cname0]
  (cname0, chain)

/-!
Takeover detector (class TakeoverDetector, src/subsentinal.py lines
1515-2075).  The outcome of check_cname_nxdomain for a name (true iff the
A-query raised NXDOMAIN or NoNameservers, src/subsentinal.py lines
1527-1539) is an oracle `isNx : String → Bool`.
-/

/-- TakeoverDetector.check_chain_nxdomain (src/subsentinal.py lines
1578-1585): the dangling links of the whole chain, in order — the chain
head included, since the loop runs over every link. -/
def check_chain_nxdomain (isNx : String → Bool) (cname_chain : List String) : List String :=
  cname_chain.filter isNx

/-- The chain_dangling value analyze_subdomain step 5 passes to
validate_takeover (src/subsentinal.py lines 1722-1728): the full-chain
walk runs only when the chain has more than one link; the head is not
excluded from the result (only the duplicate evidence line is skipped). -/
def analyzeChainDangling (isNx : String → Bool) (cname_chain : List String) : List String :=
  if 1 < cname_chain.length then check_chain_nxdomain isNx cname_chain else []

/-- Python `finding.https_status or finding.http_status`
(src/subsentinal.py line 1951): the https status when it is truthy (an int
is falsy exactly when it is 0), the http status otherwise. -/
def bestStatus (https http : Option Nat) : Option Nat :=
  match https with
  | some s => if s == 0 then http else some s
  | none => http

/-- First pattern of the list whose lowercase form occurs in the (already
lowercased) body; models the first-match break of the error-pattern and
claimed-indicator loops (src/subsentinal.py lines 1981-1988 and
1994-2001). -/
def firstMatch (patterns : List String) (bodyLower : String) : Option String :=
  patterns.find? (fun p => strHasSub bodyLower (lowerStr p))

/-- Signal 0 contribution: NS delegation takeover, +50
(src/subsentinal.py lines 1929-1932). -/
def nsContrib (ns_takeover : Bool) : Int := if ns_takeover then 50 else 0

/-- Signal 1 contribution: CNAME head NXDOMAIN, +40
(src/subsentinal.py lines 1954-1957). -/
def nxContrib (nxdomain : Bool) : Int := if nxdomain then 40 else 0

/-- Signal 1b contribution: dangling chain links, min(35 * len, 70), added
only when the list is nonempty (src/subsentinal.py lines 1961-1963). -/
def chainContrib (chain_dangling : List String) : Int :=
  if chain_dangling.isEmpty then 0 else min (35 * (chain_dangling.length : Int)) 70

/-- Signal 3 contribution: status code in the provider's expected set, +20
(src/subsentinal.py lines 1973-1975); Python `None in codes` is false. -/
def statusContrib (codes : List Nat) (status_code : Option Nat) : Int :=
  match status_code with
  | some s => if s ∈ codes then 20 else 0
  | none => 0

/-- Signal 4 contribution: provider error pattern in the body, +30 on the
first match only (src/subsentinal.py lines 1980-1988). -/
def errorContrib (error_patterns : List String) (bodyLower : String) : Int :=
  if (firstMatch error_patterns bodyLower).isSome then 30 else 0

/-- Signal 5 adjustment (src/subsentinal.py lines 1993-2005): a claimed
indicator in the body clamps conf to max(0, conf - 15); otherwise, when the
provider declares claimed indicators, +10. -/
def claimedAdjust (claimed_indicators : List String) (bodyLower : String) (conf : Int) : Int :=
  if (firstMatch claimed_indicators bodyLower).isSome then max 0 (conf - 15)
  else if claimed_indicators.isEmpty then conf else conf + 10

/-- Signal 6 contribution: no HTTP response and NXDOMAIN, +10
(src/subsentinal.py lines 2007-2009). -/
def noHttpContrib (is_live nxdomain : Bool) : Int :=
  if !is_live && nxdomain then 10 else 0

/-- Signal 7 contribution: SSL certificate mismatch, +15
(src/subsentinal.py lines 2017-2018). -/
def sslContrib (ssl_mismatch : Bool) : Int := if ssl_mismatch then 15 else 0

/-- Signal 8 contribution: dangling A record and host unreachable, +15
(src/subsentinal.py lines 2022-2023). -/
def danglingAContrib (dangling_a_record is_live : Bool) : Int :=
  if dangling_a_record && !is_live then 15 else 0

/-- Wildcard suppression (src/subsentinal.py lines 2027-2029):
max(0, conf - 20) when the apex has wildcard DNS. -/
def wildcardAdjust (has_wildcard : Bool) (conf : Int) : Int :=
  if has_wildcard then max 0 (conf - 20) else conf

/-- The can_takeover cap (src/subsentinal.py lines 2033-2035): when the
provider cannot be claimed and there is no NS takeover, conf is capped by
min(conf, 30). -/
def capAdjust (can_claim ns_takeover : Bool) (conf : Int) : Int :=
  if !can_claim && !ns_takeover then min conf 30 else conf

/-- Python `PROVIDER_CONFIGS.get(finding.provider, {}) if finding.provider
else {}` (src/subsentinal.py line 1940): the config dict, none standing for
the empty dict. -/
def cfgOf : Option String → Option ProviderConfig
  | some s => if s == "" then none else lookupConfig s
  | none => none

/-- config.get('can_takeover', True) (src/subsentinal.py line 1943). -/
def cfg_can_takeover : Option ProviderConfig → Bool
  | some c => c.can_takeover
  | none => true

/-- config.get('error_patterns', []) (src/subsentinal.py line 1946). -/
def cfg_error_patterns : Option ProviderConfig → List String
  | some c => c.error_patterns
  | none => []

/-- config.get('claimed_indicators', []) (src/subsentinal.py line 1947). -/
def cfg_claimed_indicators : Option ProviderConfig → List String
  | some c => c.claimed_indicators
  | none => []

/-- config.get('status_codes', [404]) (src/subsentinal.py line 1948). -/
def cfg_status_codes : Option ProviderConfig → List Nat
  | some c => c.status_codes
  | none => [404]

/-- config.get('takeover_url', 'provider console')
(src/subsentinal.py line 2069). -/
def cfg_takeover_url : Option ProviderConfig → String
  | some c => c.takeover_url
  | none => "provider console"

/-- config.get('verification_method', 'resource')
(src/subsentinal.py line 2070). -/
def cfg_verification_method : Option ProviderConfig → String
  | some c => c.verification_method
  | none => "resource"

/-- Confidence accumulated by validate_takeover through every signal and
the wildcard suppression, before the can_takeover cap (src/subsentinal.py
lines 1929-2030, the non-early-return path): signals 0, 1, 1b, 3, 4 sum
up; the claimed-indicator adjustment applies to that sum; signals 6, 7, 8
add afterwards; then the wildcard suppression. -/
def confidencePreCap (finding : SubdomainFinding) (body : String)
    (nxdomain ns_takeover : Bool) (chain_dangling : List String)
    (ssl_mismatch has_wildcard : Bool) : Int :=
  let cfg := cfgOf finding.provider
  let bodyL := lowerStr body
  let base := nsContrib ns_takeover + nxContrib nxdomain + chainContrib chain_dangling
    + statusContrib (cfg_status_codes cfg) (bestStatus finding.https_status finding.http_status)
    + errorContrib (cfg_error_patterns cfg) bodyL
  let afterClaimed := claimedAdjust (cfg_claimed_indicators cfg) bodyL base
  let afterLate := afterClaimed + noHttpContrib finding.is_live nxdomain
    + sslContrib ssl_mismatch
    + danglingAContrib finding.dangling_a_record finding.is_live
  wildcardAdjust has_wildcard afterLate

/-- Verdict assignment from the final confidence (src/subsentinal.py lines
2040-2056): strict threshold buckets; below 20, UNLIKELY exactly when both
the provider and the cname are truthy, SAFE otherwise (the risk level
keeps its INFO initialization in the last two branches). -/
def verdictOf (conf : Int) (provider cname : Option String) : TakeoverStatus × RiskLevel :=
  if 80 ≤ conf then (TakeoverStatus.CONFIRMED, RiskLevel.CRITICAL)
  else if 60 ≤ conf then (TakeoverStatus.HIGHLY_LIKELY, RiskLevel.HIGH)
  else if 40 ≤ conf then (TakeoverStatus.LIKELY, RiskLevel.MEDIUM)
  else if 20 ≤ conf then (TakeoverStatus.POSSIBLE, RiskLevel.LOW)
  else if pyTruthy provider && pyTruthy cname then (TakeoverStatus.UNLIKELY, RiskLevel.INFO)
  else (TakeoverStatus.SAFE, RiskLevel.INFO)

/-- Verification steps (src/subsentinal.py lines 2059-2073): emitted for
the three potentially-vulnerable verdicts only. -/
def verificationStepsOf (status : TakeoverStatus) (ns_takeover : Bool)
    (cfg : Option ProviderConfig) (cname : Option String) (subdomain : String) : List String :=
  if status = TakeoverStatus.CONFIRMED ∨ status = TakeoverStatus.HIGHLY_LIKELY
      ∨ status = TakeoverStatus.LIKELY then
    if ns_takeover then
      ["1. Register the dead nameserver domain",
       "2. Set up DNS hosting on the claimed nameserver",
       "3. Create DNS records for " ++ subdomain,
       "4. Full DNS control achieved — can point to any IP"]
    else
      ["1. Navigate to " ++ cfg_takeover_url cfg,
       "2. Create a new " ++ cfg_verification_method cfg,
       "3. Point it to the CNAME: " ++ optStr cname,
       "4. Verify you can access content at http://" ++ subdomain]
  else []

/-- The validation dict validate_takeover returns
(src/subsentinal.py lines 1918-1924). -/
structure Validation where
  status : TakeoverStatus
  confidence : Int
  evidence : List String
  verification_steps : List String
  risk_level : RiskLevel
deriving DecidableEq, Repr

/-- Status-code evidence lines (src/subsentinal.py lines 1974-1978);
Python renders the expected list with its repr, which coincides with
Lean toString on List Nat. -/
def statusEvidence (codes : List Nat) (status_code : Option Nat) : List String :=
  match status_code with
  | some s =>
    if s ∈ codes then ["Expected HTTP status (" ++ toString s ++ ") found"]
    else ["HTTP status " ++ toString s ++ " not in expected codes " ++ toString codes]
  | none => []

/-- Evidence list validate_takeover accumulates on the non-early-return
path, in source order (src/subsentinal.py lines 1929-2037). -/
def validationEvidence (finding : SubdomainFinding) (body : String)
    (nxdomain ns_takeover : Bool) (chain_dangling : List String)
    (ssl_mismatch has_wildcard : Bool) : List String :=
  let cfg := cfgOf finding.provider
  let bodyL := lowerStr body
  let preCap := confidencePreCap finding body nxdomain ns_takeover chain_dangling
    ssl_mismatch has_wildcard
  (if ns_takeover then
    ["🔴 NS DELEGATION: Nameservers return NXDOMAIN — full DNS control possible"] else [])
  ++ (if nxdomain then
      ["🔴 NXDOMAIN: CNAME target '" ++ optStr finding.cname
        ++ "' does not exist (strongest takeover signal)"]
    else if pyTruthy finding.cname then
      ["CNAME target '" ++ optStr finding.cname ++ "' resolves (NXDOMAIN not detected)"]
    else [])
  ++ chain_dangling.map (fun link => "🔴 CHAIN: Intermediate CNAME '" ++ link ++ "' dangling")
  ++ (if pyTruthy finding.cname then ["CNAME points to: " ++ optStr finding.cname] else [])
  ++ (if pyTruthy finding.provider then
      ["Provider identified: " ++ optStr finding.provider] else [])
  ++ statusEvidence (cfg_status_codes cfg)
      (bestStatus finding.https_status finding.http_status)
  ++ (match firstMatch (cfg_error_patterns cfg) bodyL with
    | some p => ["Provider error message found: '" ++ p ++ "'"]
    | none =>
      if (cfg_error_patterns cfg).isEmpty then [] else ["No provider error messages found"])
  ++ (match firstMatch (cfg_claimed_indicators cfg) bodyL with
    | some ind => ["Site appears claimed (found: '" ++ ind ++ "')"]
    | none =>
      if (cfg_claimed_indicators cfg).isEmpty then []
      else ["No claimed site indicators found"])
  ++ (if !finding.is_live && nxdomain then
      ["No HTTP response and NXDOMAIN — resource likely unclaimed"]
    else if finding.is_live && !(bodyL == "") then ["Received valid HTTP response"]
    else ["No valid HTTP response received"])
  ++ (if ssl_mismatch then
      ["🟡 SSL cert does not match subdomain (misconfigured resource)"] else [])
  ++ (if finding.dangling_a_record && !finding.is_live then
      ["🟡 A-record in cloud IP range and host unreachable"] else [])
  ++ (if has_wildcard then
      ["⚠️ Wildcard DNS detected — confidence reduced by 20 to suppress false positives"]
    else [])
  ++ (if !cfg_can_takeover cfg && !ns_takeover && 30 < preCap then
      ["⚠️ Provider '" ++ optStr finding.provider
        ++ "' does not allow arbitrary domain claiming — confidence capped at 30"]
    else [])

/-- TakeoverDetector.validate_takeover (src/subsentinal.py lines
1914-2075) as a pure function of the probe outcomes.  The inputs mirror
the Python call: the finding as populated by steps 1-9 of
analyze_subdomain, the http_info body, the nxdomain flag of the CNAME
head, the ns_takeover flag, the dangling chain links, the SSL mismatch
flag; has_wildcard is the memoized result the awaited
check_wildcard_domain call returns.  When no truthy provider, no NS
takeover and no dangling A record are present, the early return at lines
1935-1938 yields SAFE with the confidence accumulated so far (only
signal 0, which is 0 under the branch condition). -/
def validate_takeover (finding : SubdomainFinding) (body : String)
    (nxdomain ns_takeover : Bool) (chain_dangling : List String)
    (ssl_mismatch has_wildcard : Bool) : Validation :=
  if !pyTruthy finding.provider && !ns_takeover && !finding.dangling_a_record then
    { status := TakeoverStatus.SAFE,
      confidence := nsContrib ns_takeover,
      evidence := (if ns_takeover then
          ["🔴 NS DELEGATION: Nameservers return NXDOMAIN — full DNS control possible"]
        else []) ++ ["No provider identified"],
      verification_steps := [],
      risk_level := RiskLevel.INFO }
  else
    let cfg := cfgOf finding.provider
    let conf0 := confidencePreCap finding body nxdomain ns_takeover chain_dangling
      ssl_mismatch has_wildcard
    let conf := capAdjust (cfg_can_takeover cfg) ns_takeover conf0
    let vr := verdictOf conf finding.provider finding.cname
    { status := vr.1,
      confidence := conf,
      evidence := validationEvidence finding body nxdomain ns_takeover chain_dangling
        ssl_mismatch has_wildcard,
      verification_steps := verificationStepsOf vr.1 ns_takeover cfg finding.cname
        finding.subdomain,
      risk_level := vr.2 }

/-- TakeoverDetector.identify_provider inner scan (src/subsentinal.py
lines 1828-1831 and 1836-1839): the first provider of PROVIDER_CONFIGS one
of whose lowercased cname patterns occurs in the lowercased name. -/
def scanConfigs (s : String) : Option String :=
  (PROVIDER_CONFIGS.find? (fun pc =>
    pc.2.cname_patterns.any (fun pat => strHasSub (lowerStr s) (lowerStr pat)))).map Prod.fst

/-- Chain scan of identify_provider (src/subsentinal.py lines 1834-1839):
outer loop over chain links, inner loop over providers, first hit wins. -/
def chainScan : List String → Option String
  | [] => none
  | l :: ls =>
    match scanConfigs l with
    | some p => some p
    | none => chainScan ls

/-- TakeoverDetector.identify_provider (src/subsentinal.py lines
1822-1841): scan the cname first, then every chain link. -/
def identify_provider (cname : String) (chain : List String) : Option String :=
  if cname == "" then none
  else
    match scanConfigs cname with
    | some p => some p
    | none => chainScan chain

/-- Name matching of TakeoverDetector.check_ssl_mismatch
(src/subsentinal.py lines 1625-1634): a name starting with "*." matches
when the subdomain merely ends with the characters after "*." (a plain
suffix test); any other name must be equal to the subdomain. -/
def sslNameMatches (subdomain name : String) : Bool :=
  if strStarts name "*." then strEnds subdomain (strDropN name 2)
  else subdomain == name

/-- TakeoverDetector.check_ssl_mismatch (src/subsentinal.py lines
1587-1652) as a function of the TLS probe outcome: none models every
connection or parse failure (the bare return at line 1652 gives
(False, None)); some (cn, sans) models a successfully parsed peer
certificate, cn being "" when the subject has no commonName.  The
candidate list is the SANs followed by the CN when the CN is truthy, and
the result is (not matches, cn). -/
def check_ssl_mismatch (subdomain : String) (cert : Option (String × List String)) :
    Bool × Option String :=
  match cert with
  | none => (false, none)
  | some (cn, sans) =>
    let all_names := sans ++ (if cn == "" then [] else [cn])
    let matched := all_names.any (fun name => sslNameMatches subdomain name)
    (!matched, some cn)

/-- Modelled from the spec: the wildcard-matching rule the specification
ascribes to the SSL check ("a *.foo.bar SAN matches any single-label
prefix of foo.bar"): the host must be one nonempty dot-free label, a dot,
then the base — so the base itself, multi-label prefixes, and unrelated
names merely ending in the base are all non-matches. -/
def specSslNameMatches (host name : String) : Bool :=
  if strStarts name "*." then
    let base := strDropN name 2
    strEnds host ("." ++ base) &&
      (let label := strTake host (host.data.length - (base.data.length + 1))
       !(label == "") && !label.data.contains '.')
  else host == name

/-- Python headers.get(name, ''): the first binding of the name in the
header mapping, or the empty string (src/subsentinal.py line 1663). -/
def headerGet (headers : List (String × String)) (name : String) : String :=
  match headers.find? (fun p => p.1 == name) with
  | some p => p.2
  | none => ""

/-- One fingerprint entry test (src/subsentinal.py lines 1663-1664): the
actual header value must be truthy (nonempty), and the expected substring,
when nonempty, must occur in it. -/
def entryOk (headers : List (String × String)) (name expected : String) : Bool :=
  let actual := headerGet headers name
  !(actual == "") && (expected == "" || strHasSub actual expected)

/-- Provider loop of check_response_headers (src/subsentinal.py lines
1659-1668): count the satisfied entries of each fingerprint; the first
provider with every entry satisfied and a nonempty fingerprint wins. -/
def findFirstProvider (headers : List (String × String)) :
    List (String × List (String × String)) → Option String
  | [] => none
  | (provider, fingerprint) :: rest =>
    let match_count := (fingerprint.filter (fun e => entryOk headers e.1 e.2)).length
    if match_count == fingerprint.length && 0 < fingerprint.length then some provider
    else findFirstProvider headers rest

/-- TakeoverDetector.check_response_headers (src/subsentinal.py lines
1654-1668): none for an empty header mapping, else the first matching
fingerprint provider. -/
def check_response_headers (headers : List (String × String)) : Option String :=
  if headers.isEmpty then none
  else findFirstProvider headers HEADER_FINGERPRINTS

/-!
TakeoverDetector.analyze_subdomain (src/subsentinal.py lines 1683-1791).
The method builds one SubdomainFinding, runs its pipeline steps inside a
single try block mutating the finding in order, and its except handler
turns any raised exception into verdict ERROR on the finding as populated
so far, appending the truncated message.  Each step is modelled as a
function from the current finding to a StageOutcome: `next` continues with
the updated finding, `done` models the early `return finding` (step 3 SAFE
short-circuit), and `raise` models an exception escaping the step with
the finding as mutated before the step (the message is str(e)).
-/

/-- Outcome of one pipeline step of analyze_subdomain. -/
inductive StageOutcome
  | next (f : SubdomainFinding)
  | done (f : SubdomainFinding)
  | raise (msg : String)

/-- The try-block body of analyze_subdomain: run the steps in order over
the finding; the result pairs the finding as far as it got with the
message of the exception, if one was raised. -/
def runStages : List (SubdomainFinding → StageOutcome) → SubdomainFinding →
    SubdomainFinding × Option String
  | [], f => (f, none)
  | s :: rest, f =>
    match s f with
    | StageOutcome.next f2 => runStages rest f2
    | StageOutcome.done f2 => (f2, none)
    | StageOutcome.raise e => (f, some e)

/-- The finding as created at src/subsentinal.py line 1685: every field at
its dataclass default. -/
def initialFinding (sub : String) : SubdomainFinding := { subdomain := sub }

/-- The evidence line the except handler appends
(src/subsentinal.py line 1787): the message truncated to 100 characters. -/
def analysisErrorMsg (e : String) : String := "Analysis error: " ++ strTake e 100

/-- TakeoverDetector.analyze_subdomain (src/subsentinal.py lines
1683-1791): the try/except around the pipeline.  On a normal or early
return the finding is returned as produced; when a step raises, the
handler (lines 1785-1787) sets takeover_status to ERROR and appends the
truncated analysis-error evidence, leaving every other field as the
pipeline left it. -/
def analyze_subdomain (stages : List (SubdomainFinding → StageOutcome))
    (sub : String) : SubdomainFinding :=
  match runStages stages (initialFinding sub) with
  | (f, none) => f
  | (f, some e) =>
    { f with takeover_status := TakeoverStatus.ERROR,
             evidence := f.evidence ++ [analysisErrorMsg e] }

/-!
Concrete instances used by the counterexamples and witnesses below.
-/

/-- A finding with every strong signal available: known github provider,
CNAME present, expected status captured over HTTPS, live host. -/
def findingC1 : SubdomainFinding :=
  { subdomain := "x.example.com", provider := some "github",
    cname := some "c.github.io",
    cname_chain := ["c.github.io", "d.example.com", "e.example.com"],
    https_status := some 404, is_live := true }

/-- Classification oracle marking exactly "a" and "b" as NXDOMAIN. -/
def nxAB : String → Bool := fun s => s == "a" || s == "b"

/-- CNAME query oracle producing a strictly growing six-name chain:
every name of at most five characters aliases to itself plus one "a". -/
def nextGrow : String → Option String :=
  fun s => if s.data.length ≤ 5 then some (s ++ "a") else none

/-- A finding whose body carries a claimed-site indicator, forcing the
final confidence to 0 while provider and CNAME are both present. -/
def findingC4 : SubdomainFinding :=
  { subdomain := "x.example.com", provider := some "github",
    cname := some "c.github.io", cname_chain := ["c.github.io"],
    https_status := some 200, is_live := true }

/-- A finding on the cloudflare provider (can_takeover = false) with
NXDOMAIN CNAME, expected status and error pattern all firing. -/
def findingC5 : SubdomainFinding :=
  { subdomain := "w.example.com", provider := some "cloudflare",
    cname := some "x.workers.dev", cname_chain := ["x.workers.dev"],
    https_status := some 404, is_live := true }

/-- The scenario-1 finding: single-element CNAME chain to a dead
aws_s3 target, HTTP probe failed entirely. -/
def findingC6 : SubdomainFinding :=
  { subdomain := "test.example.com", provider := some "aws_s3",
    cname := some "missing-xyz.s3.amazonaws.com",
    cname_chain := ["missing-xyz.s3.amazonaws.com"] }

/-- A pipeline whose first stage populates DNS fields, whose second stage
raises, and whose third stage would populate the provider but is never
reached. -/
def stagesC7 : List (SubdomainFinding → StageOutcome) :=
  [fun f => StageOutcome.next
    { f with cname := some "c.example.com", cname_chain := ["c.example.com"] },
   fun _ => StageOutcome.raise "boom",
   fun f => StageOutcome.next { f with provider := some "unreached" }]

/-- The finding stagesC7 has built when its second stage raises. -/
def findingC7 : SubdomainFinding :=
  { subdomain := "err.example.com", cname := some "c.example.com",
    cname_chain := ["c.example.com"] }

/-- A finding with both statuses capturable: HTTPS 404 recorded. -/
def findingC9 : SubdomainFinding :=
  { subdomain := "s.example.com", provider := some "github",
    cname := some "c.github.io", https_status := some 404 }

/-!
Theorems.  Nonnegativity helpers first: every signal contribution is
nonnegative and every adjustment preserves nonnegativity, in source order.
-/

theorem nsContrib_nonneg (b : Bool) : 0 ≤ nsContrib b := by
  cases b <;> simp [nsContrib]

theorem nxContrib_nonneg (b : Bool) : 0 ≤ nxContrib b := by
  cases b <;> simp [nxContrib]

theorem chainContrib_nonneg (l : List String) : 0 ≤ chainContrib l := by
  unfold chainContrib
  split
  · exact le_refl 0
  · exact le_min (by positivity) (by norm_num)

theorem statusContrib_nonneg (codes : List Nat) (st : Option Nat) :
    0 ≤ statusContrib codes st := by
  cases st with
  | none => simp [statusContrib]
  | some s =>
    simp only [statusContrib]
    split <;> norm_num

theorem errorContrib_nonneg (pats : List String) (body : String) :
    0 ≤ errorContrib pats body := by
  unfold errorContrib
  split <;> norm_num

theorem claimedAdjust_nonneg (inds : List String) (body : String) (c : Int)
    (hc : 0 ≤ c) : 0 ≤ claimedAdjust inds body c := by
  unfold claimedAdjust
  split
  · exact le_max_left 0 _
  · split
    · exact hc
    · omega

theorem noHttpContrib_nonneg (live nx : Bool) : 0 ≤ noHttpContrib live nx := by
  unfold noHttpContrib
  split <;> norm_num

theorem sslContrib_nonneg (b : Bool) : 0 ≤ sslContrib b := by
  cases b <;> simp [sslContrib]

theorem danglingAContrib_nonneg (d live : Bool) : 0 ≤ danglingAContrib d live := by
  unfold danglingAContrib
  split <;> norm_num

theorem wildcardAdjust_nonneg (wc : Bool) (c : Int) (hc : 0 ≤ c) :
    0 ≤ wildcardAdjust wc c := by
  unfold wildcardAdjust
  split
  · exact le_max_left 0 _
  · exact hc

theorem capAdjust_nonneg (can ns : Bool) (c : Int) (hc : 0 ≤ c) :
    0 ≤ capAdjust can ns c := by
  unfold capAdjust
  split
  · exact le_min hc (by norm_num)
  · exact hc

theorem confidencePreCap_nonneg (f : SubdomainFinding) (body : String)
    (nx ns : Bool) (ch : List String) (ssl wc : Bool) :
    0 ≤ confidencePreCap f body nx ns ch ssl wc := by
  unfold confidencePreCap
  apply wildcardAdjust_nonneg
  have h1 : 0 ≤ nsContrib ns + nxContrib nx + chainContrib ch
      + statusContrib (cfg_status_codes (cfgOf f.provider))
          (bestStatus f.https_status f.http_status)
      + errorContrib (cfg_error_patterns (cfgOf f.provider)) (lowerStr body) := by
    have := nsContrib_nonneg ns
    have := nxContrib_nonneg nx
    have := chainContrib_nonneg ch
    have := statusContrib_nonneg (cfg_status_codes (cfgOf f.provider))
      (bestStatus f.https_status f.http_status)
    have := errorContrib_nonneg (cfg_error_patterns (cfgOf f.provider)) (lowerStr body)
    omega
  have h2 := claimedAdjust_nonneg (cfg_claimed_indicators (cfgOf f.provider))
    (lowerStr body) _ h1
  have := noHttpContrib_nonneg f.is_live nx
  have := sslContrib_nonneg ssl
  have := danglingAContrib_nonneg f.dangling_a_record f.is_live
  omega

/-- C1: the final confidence a validation carries is never negative: the
two subtraction points (claimed indicator, wildcard suppression) clamp at
0, every other contribution is nonnegative, and the can_takeover cap and
the early SAFE return keep nonnegative values nonnegative.  The upper
bound of the claim fails: see the counterexample. -/
theorem C1_amended (f : SubdomainFinding) (body : String) (nx ns : Bool)
    (ch : List String) (ssl wc : Bool) :
    0 ≤ (validate_takeover f body nx ns ch ssl wc).confidence := by
  unfold validate_takeover
  split
  · exact nsContrib_nonneg ns
  · exact capAdjust_nonneg _ _ _ (confidencePreCap_nonneg f body nx ns ch ssl wc)

/-- C1 counterexample: with NS takeover, NXDOMAIN head, two dangling chain
links, expected status, error pattern, no claimed marker and an SSL
mismatch all firing on the github provider, the final confidence is 235 —
the code has no clamp at 100, refuting the claimed upper bound. -/
theorem C1_counterexample :
    (validate_takeover findingC1 "Check your DNS settings" true true
      ["d.example.com", "e.example.com"] true false).confidence = 235 ∧
    ¬((validate_takeover findingC1 "Check your DNS settings" true true
      ["d.example.com", "e.example.com"] true false).confidence ≤ 100) := by
  constructor
  · decide
  · decide

/-- C2: the chain-link contribution of validate_takeover counts every
dangling link of the chain passed by analyze_subdomain — the head
included, contrary to the claim: check_chain_nxdomain walks the whole
chain and only the duplicate evidence line is skipped for the head.  Each
counted link contributes +35 and the total is capped at +70. -/
theorem C2_amended (isNx : String → Bool) (head : String) (rest : List String)
    (hrest : rest ≠ []) (hhead : isNx head = true) :
    head ∈ analyzeChainDangling isNx (head :: rest) ∧
    chainContrib (analyzeChainDangling isNx (head :: rest)) =
      min (35 * (((head :: rest).filter isNx).length : Int)) 70 := by
  have hlen : 1 < (head :: rest).length := by
    cases rest with
    | nil => exact absurd rfl hrest
    | cons a t => simp [List.length_cons]
  unfold analyzeChainDangling check_chain_nxdomain
  rw [if_pos hlen]
  have hfil : (head :: rest).filter isNx = head :: rest.filter isNx := by
    simp [List.filter_cons, hhead]
  constructor
  · rw [hfil]
    exact List.mem_cons_self _ _
  · rw [hfil]
    simp [chainContrib]

/-- C2 witness: on the two-link chain ["a", "b"] with both links dangling,
the head "a" is in the counted list and the contribution is the capped
per-link total over both links. -/
theorem C2_witness :
    "a" ∈ analyzeChainDangling nxAB ["a", "b"] ∧
    chainContrib (analyzeChainDangling nxAB ["a", "b"]) =
      min (35 * (((["a", "b"] : List String).filter nxAB).length : Int)) 70 :=
  C2_amended nxAB "a" ["b"] (by decide) (by decide)

/-- C2 counterexample: the claim predicts that on the chain ["a", "b"]
with both links NXDOMAIN the head is excluded, so the chain-link
contribution would be 35 (one intermediate link); the code counts the head
too, giving 70, and the head is in the counted list. -/
theorem C2_counterexample :
    "a" ∈ analyzeChainDangling nxAB ["a", "b"] ∧
    chainContrib (analyzeChainDangling nxAB ["a", "b"]) ≠ 35 := by
  decide

/-- The dnspython chain walk keeps the chain duplicate-free and adds at
most `fuel` links to it. -/
theorem followCnameChain_invariant (next : String → Option String) :
    ∀ (fuel : Nat) (cname : String) (chain : List String), chain.Nodup →
      (followCnameChain next fuel cname chain).Nodup ∧
      (followCnameChain next fuel cname chain).length ≤ chain.length + fuel := by
  intro fuel
  induction fuel with
  | zero =>
    intro cname chain h
    simp only [followCnameChain]
    exact ⟨h, by omega⟩
  | succ n ih =>
    intro cname chain h
    simp only [followCnameChain]
    cases hn : next cname with
    | none =>
      dsimp only
      exact ⟨h, by omega⟩
    | some nc =>
      dsimp only
      by_cases hmem : nc ∈ chain
      · rw [if_pos hmem]
        exact ⟨h, by omega⟩
      · rw [if_neg hmem]
        have hnd : (chain ++ [nc]).Nodup := by simp [List.nodup_append, h, hmem]
        obtain ⟨h1, h2⟩ := ih nc (chain ++ [nc]) hnd
        refine ⟨h1, ?_⟩
        have hl : (chain ++ [nc]).length = chain.length + 1 := by simp
        omega

/-- The simple-dig walk adds at most `fuel` links to the chain. -/
theorem digFollow_length (single : String → Option String) :
    ∀ (fuel : Nat) (cname : String) (chain : List String),
      (digFollow single fuel cname chain).length ≤ chain.length + fuel := by
  intro fuel
  induction fuel with
  | zero =>
    intro c chain
    simp [digFollow]
  | succ n ih =>
    intro c chain
    simp only [digFollow]
    cases hn : single c with
    | none =>
      dsimp only
      omega
    | some nc =>
      dsimp only
      split
      · have h := ih nc (chain ++ [nc])
        simp only [List.length_append, List.length_singleton] at h
        omega
      · omega

/-- The seen-set dedup pass returns a duplicate-free list avoiding the
seen set. -/
theorem dedupeAux_invariant :
    ∀ (l seen : List String),
      (dedupeAux seen l).Nodup ∧ ∀ x ∈ dedupeAux seen l, x ∉ seen := by
  intro l
  induction l with
  | nil =>
    intro seen
    simp [dedupeAux]
  | cons c cs ih =>
    intro seen
    simp only [dedupeAux]
    by_cases hc : c ∈ seen
    · rw [if_pos hc]
      exact ih seen
    · rw [if_neg hc]
      obtain ⟨hnd, hnotin⟩ := ih (c :: seen)
      constructor
      · refine List.nodup_cons.mpr ⟨?_, hnd⟩
        intro hmem
        exact hnotin c hmem (List.mem_cons_self c seen)
      · intro x hx
        rcases List.mem_cons.mp hx with h | h
        · subst h
          exact hc
        · intro hxs
          exact hnotin x h (List.mem_cons_of_mem _ hxs)

/-- C3 amended: the protocol-level (dnspython) chain walk yields a
duplicate-free chain of length at most 6 (the first answer plus up to 5
followed hops — not 5 as claimed); the dig +trace parse deduplicates its
chain but enforces no length bound; the dig +short follow-up walk bounds
the length by 6 but compares only the immediately preceding link, so it
carries no duplicate-freedom guarantee. -/
theorem C3_amended :
    (∀ (next : String → Option String) (cname0 : String),
      (resolveCnameDnspython next cname0).2.Nodup ∧
      (resolveCnameDnspython next cname0).2.length ≤ 6) ∧
    (∀ cnames : List String, (dedupeKeepFirst cnames).Nodup) ∧
    (∀ (single : String → Option String) (cname0 : String),
      (resolveCnameDigSimple single cname0).2.length ≤ 6) := by
  refine ⟨?_, ?_, ?_⟩
  · intro next c0
    have h := followCnameChain_invariant next 5 c0 [c0] (by simp)
    simpa [resolveCnameDnspython] using h
  · intro l
    exact (dedupeAux_invariant l []).1
  · intro single c0
    have h := digFollow_length single 5 c0 [c0]
    simpa [resolveCnameDigSimple] using h

/-- C3 counterexample: under a query oracle aliasing each short name to a
strictly longer one, the dnspython walk returns a chain of 6 entries,
refuting the claimed bound of 5. -/
theorem C3_counterexample :
    ¬((resolveCnameDnspython nextGrow "a").2.length ≤ 5) := by
  decide

/-- C4 amended: the status and risk of every validation are the verdict
buckets of its final confidence, and the buckets are: ≥80 CONFIRMED
(CRITICAL), ≥60 HIGHLY_LIKELY (HIGH), ≥40 LIKELY (MEDIUM), ≥20 POSSIBLE
(LOW); below 20 the verdict is UNLIKELY exactly when both the provider and
the cname are truthy — regardless of whether the confidence is positive,
contrary to the claim — and SAFE otherwise. -/
theorem C4_amended :
    ∀ (f : SubdomainFinding) (body : String) (nx ns : Bool) (ch : List String)
      (ssl wc : Bool),
    ((validate_takeover f body nx ns ch ssl wc).status,
        (validate_takeover f body nx ns ch ssl wc).risk_level)
      = verdictOf (validate_takeover f body nx ns ch ssl wc).confidence
          f.provider f.cname
    ∧ ∀ (conf : Int) (p c : Option String),
      (80 ≤ conf → verdictOf conf p c = (TakeoverStatus.CONFIRMED, RiskLevel.CRITICAL)) ∧
      (60 ≤ conf → conf < 80 →
        verdictOf conf p c = (TakeoverStatus.HIGHLY_LIKELY, RiskLevel.HIGH)) ∧
      (40 ≤ conf → conf < 60 →
        verdictOf conf p c = (TakeoverStatus.LIKELY, RiskLevel.MEDIUM)) ∧
      (20 ≤ conf → conf < 40 →
        verdictOf conf p c = (TakeoverStatus.POSSIBLE, RiskLevel.LOW)) ∧
      (conf < 20 → pyTruthy p = true → pyTruthy c = true →
        verdictOf conf p c = (TakeoverStatus.UNLIKELY, RiskLevel.INFO)) ∧
      (conf < 20 → (pyTruthy p && pyTruthy c) = false →
        verdictOf conf p c = (TakeoverStatus.SAFE, RiskLevel.INFO)) := by
  intro f body nx ns ch ssl wc
  constructor
  · unfold validate_takeover
    split
    case isTrue hcond =>
      simp only [Bool.and_eq_true, Bool.not_eq_true'] at hcond
      obtain ⟨⟨hp, hns⟩, hd⟩ := hcond
      subst hns
      dsimp only
      simp [verdictOf, nsContrib, hp]
    case isFalse hcond =>
      dsimp only
  · intro conf p c
    refine ⟨?_, ?_, ?_, ?_, ?_, ?_⟩
    · intro h1
      rw [verdictOf, if_pos h1]
    · intro h1 h2
      rw [verdictOf, if_neg (by omega), if_pos h1]
    · intro h1 h2
      rw [verdictOf, if_neg (by omega), if_neg (by omega), if_pos h1]
    · intro h1 h2
      rw [verdictOf, if_neg (by omega), if_neg (by omega), if_neg (by omega), if_pos h1]
    · intro h1 hp hc
      rw [verdictOf, if_neg (by omega), if_neg (by omega), if_neg (by omega),
        if_neg (by omega)]
      simp [hp, hc]
    · intro h1 hpc
      rw [verdictOf, if_neg (by omega), if_neg (by omega), if_neg (by omega),
        if_neg (by omega)]
      simp [hpc]

/-- C4 witness: a confidence of 10 with provider and cname both present
buckets to UNLIKELY with INFO risk. -/
theorem C4_witness :
    verdictOf 10 (some "github") (some "c.github.io")
      = (TakeoverStatus.UNLIKELY, RiskLevel.INFO) :=
  ((C4_amended (initialFinding "w.example.com") "" false false [] false false).2
    10 (some "github") (some "c.github.io")).2.2.2.2.1 (by norm_num) (by decide) (by decide)

/-- C4 counterexample: a github finding whose body carries a claimed-site
marker ends with confidence exactly 0, yet — because provider and cname
are both present — the verdict is UNLIKELY, not SAFE, refuting the
claimed condition "UNLIKELY exactly when confidence > 0 and a provider is
known". -/
theorem C4_counterexample :
    (validate_takeover findingC4 "githubusercontent" false false [] false false).confidence
      = 0 ∧
    (validate_takeover findingC4 "githubusercontent" false false [] false false).status
      = TakeoverStatus.UNLIKELY := by
  decide

/-- A provider whose looked-up config has can_takeover false is a truthy
provider name (the empty or absent provider falls back to the default
True). -/
theorem pyTruthy_of_cap (p : Option String)
    (h : cfg_can_takeover (cfgOf p) = false) : pyTruthy p = true := by
  cases p with
  | none => simp [cfgOf, cfg_can_takeover] at h
  | some s =>
    cases hs : (s == "") with
    | true => simp [cfgOf, hs, cfg_can_takeover] at h
    | false => simp [pyTruthy, hs]

/-- Below the LIKELY threshold, the verdict is none of CONFIRMED,
HIGHLY_LIKELY or LIKELY. -/
theorem verdictOf_low (conf : Int) (p c : Option String) (h : conf < 40) :
    (verdictOf conf p c).1 ≠ TakeoverStatus.CONFIRMED ∧
    (verdictOf conf p c).1 ≠ TakeoverStatus.HIGHLY_LIKELY ∧
    (verdictOf conf p c).1 ≠ TakeoverStatus.LIKELY := by
  rw [verdictOf, if_neg (by omega), if_neg (by omega), if_neg (by omega)]
  split
  · simp
  · split
    · simp
    · simp

/-- C5: whenever the identified provider has can_takeover false and there
is no NS-delegation signal, the final confidence is capped at 30 — so the
verdict is below LIKELY — however many other signals fired; with an
NS-delegation signal present the cap is not applied and the confidence is
exactly the pre-cap value. -/
theorem C5_claim (f : SubdomainFinding) (body : String) (nx ns : Bool)
    (ch : List String) (ssl wc : Bool)
    (hcan : cfg_can_takeover (cfgOf f.provider) = false) :
    (ns = false →
      (validate_takeover f body nx ns ch ssl wc).confidence ≤ 30 ∧
      (validate_takeover f body nx ns ch ssl wc).status ≠ TakeoverStatus.CONFIRMED ∧
      (validate_takeover f body nx ns ch ssl wc).status ≠ TakeoverStatus.HIGHLY_LIKELY ∧
      (validate_takeover f body nx ns ch ssl wc).status ≠ TakeoverStatus.LIKELY) ∧
    (ns = true →
      (validate_takeover f body nx ns ch ssl wc).confidence
        = confidencePreCap f body nx ns ch ssl wc) := by
  have hp := pyTruthy_of_cap f.provider hcan
  have hbranch : ¬((!pyTruthy f.provider && !ns && !f.dangling_a_record) = true) := by
    simp [hp]
  constructor
  · intro hns
    subst hns
    unfold validate_takeover
    rw [if_neg hbranch]
    dsimp only
    rw [hcan]
    have hcap : capAdjust false false
        (confidencePreCap f body nx false ch ssl wc)
        = min (confidencePreCap f body nx false ch ssl wc) 30 := rfl
    rw [hcap]
    have hle : min (confidencePreCap f body nx false ch ssl wc) 30 ≤ 30 :=
      min_le_right _ _
    exact ⟨hle, verdictOf_low _ f.provider f.cname (by omega)⟩
  · intro hns
    subst hns
    unfold validate_takeover
    rw [if_neg hbranch]
    dsimp only
    rw [hcan]
    rfl

/-- C5 witness: the cloudflare provider (can_takeover false) with
NXDOMAIN, expected status, error pattern and no claimed marker firing
(pre-cap confidence 100) ends capped at 30 with a verdict below LIKELY. -/
theorem C5_witness :
    (validate_takeover findingC5 "Worker not found" true false [] false false).confidence
      ≤ 30 ∧
    (validate_takeover findingC5 "Worker not found" true false [] false false).status
      ≠ TakeoverStatus.CONFIRMED ∧
    (validate_takeover findingC5 "Worker not found" true false [] false false).status
      ≠ TakeoverStatus.HIGHLY_LIKELY ∧
    (validate_takeover findingC5 "Worker not found" true false [] false false).status
      ≠ TakeoverStatus.LIKELY :=
  (C5_claim findingC5 "Worker not found" true false [] false false (by decide)).1 rfl

/-- C6 amended: for an input whose single-element CNAME chain is
identified as aws_s3, with the CNAME target NXDOMAIN, the HTTP probe
failing entirely (not live, empty body, no statuses) and no NS, wildcard
or SSL signals, the detector yields confidence exactly 60 — +40 for
NXDOMAIN, +10 because no claimed-site marker is present in the (empty)
body, +10 for no-HTTP-with-NXDOMAIN — and hence verdict HIGHLY_LIKELY
with HIGH risk, not the claimed 50/LIKELY. -/
theorem C6_amended (cname : String)
    (h : identify_provider cname [cname] = some "aws_s3") :
    (validate_takeover
      { subdomain := "test.example.com", provider := identify_provider cname [cname],
        cname := some cname, cname_chain := [cname] }
      "" true false [] false false).confidence = 60 ∧
    (validate_takeover
      { subdomain := "test.example.com", provider := identify_provider cname [cname],
        cname := some cname, cname_chain := [cname] }
      "" true false [] false false).status = TakeoverStatus.HIGHLY_LIKELY ∧
    (validate_takeover
      { subdomain := "test.example.com", provider := identify_provider cname [cname],
        cname := some cname, cname_chain := [cname] }
      "" true false [] false false).risk_level = RiskLevel.HIGH := by
  rw [h]
  refine ⟨?_, ?_, ?_⟩ <;> rfl

/-- C6 witness: the scenario target missing-xyz.s3.amazonaws.com is
identified as aws_s3 and produces confidence 60, verdict HIGHLY_LIKELY. -/
theorem C6_witness :
    (validate_takeover
      { subdomain := "test.example.com",
        provider := identify_provider "missing-xyz.s3.amazonaws.com"
          ["missing-xyz.s3.amazonaws.com"],
        cname := some "missing-xyz.s3.amazonaws.com",
        cname_chain := ["missing-xyz.s3.amazonaws.com"] }
      "" true false [] false false).confidence = 60 ∧
    (validate_takeover
      { subdomain := "test.example.com",
        provider := identify_provider "missing-xyz.s3.amazonaws.com"
          ["missing-xyz.s3.amazonaws.com"],
        cname := some "missing-xyz.s3.amazonaws.com",
        cname_chain := ["missing-xyz.s3.amazonaws.com"] }
      "" true false [] false false).status = TakeoverStatus.HIGHLY_LIKELY ∧
    (validate_takeover
      { subdomain := "test.example.com",
        provider := identify_provider "missing-xyz.s3.amazonaws.com"
          ["missing-xyz.s3.amazonaws.com"],
        cname := some "missing-xyz.s3.amazonaws.com",
        cname_chain := ["missing-xyz.s3.amazonaws.com"] }
      "" true false [] false false).risk_level = RiskLevel.HIGH :=
  C6_amended "missing-xyz.s3.amazonaws.com" (by decide)

/-- C6 counterexample: on the literal scenario input the provider is
aws_s3, but the confidence is 60 — not the claimed 50 — and the verdict is
HIGHLY_LIKELY — not the claimed LIKELY: the claim omits the +10
no-claimed-marker contribution (aws_s3 declares claimed indicators, and
the empty body contains none of them). -/
theorem C6_counterexample :
    identify_provider "missing-xyz.s3.amazonaws.com" ["missing-xyz.s3.amazonaws.com"]
      = some "aws_s3" ∧
    (validate_takeover findingC6 "" true false [] false false).confidence = 60 ∧
    (validate_takeover findingC6 "" true false [] false false).confidence ≠ 50 ∧
    (validate_takeover findingC6 "" true false [] false false).status
      = TakeoverStatus.HIGHLY_LIKELY ∧
    (validate_takeover findingC6 "" true false [] false false).status
      ≠ TakeoverStatus.LIKELY := by
  decide

/-- C7: analyze_subdomain never propagates an exception: whatever the
pipeline stages do and wherever one raises, the result is the finding as
populated before the raising stage, with takeover_status set to ERROR and
the truncated "Analysis error" evidence line appended — every other field
unchanged (the record update touches only those two fields); and when no
stage raises the finding is returned as produced. -/
theorem C7_claim (stages : List (SubdomainFinding → StageOutcome)) (sub : String)
    (f : SubdomainFinding) :
    (∀ e, runStages stages (initialFinding sub) = (f, some e) →
      analyze_subdomain stages sub =
        { f with
          takeover_status := TakeoverStatus.ERROR,
          evidence := f.evidence ++ [analysisErrorMsg e] }) ∧
    (runStages stages (initialFinding sub) = (f, none) →
      analyze_subdomain stages sub = f) := by
  constructor
  · intro e h
    unfold analyze_subdomain
    rw [h]
  · intro h
    unfold analyze_subdomain
    rw [h]

/-- C7 witness: a pipeline that populates the DNS fields and then raises
"boom" yields exactly the populated finding with ERROR status and the
analysis-error evidence appended. -/
theorem C7_witness :
    analyze_subdomain stagesC7 "err.example.com"
      = { findingC7 with
          takeover_status := TakeoverStatus.ERROR,
          evidence := findingC7.evidence ++ [analysisErrorMsg "boom"] } :=
  (C7_claim stagesC7 "err.example.com" findingC7).1 "boom" rfl

/-- C8 amended: on a parsed certificate, ssl_mismatch is true iff the
host matches none of the SANs-then-CN candidates, where a *.base entry
matches any host that merely ends with the characters of base (a plain
suffix test, which also accepts base itself, multi-label prefixes and
unrelated names ending in base — unlike the single-label rule the claim
states); the captured CN is returned as-is; and on connection or parse
failure no mismatch is recorded and no CN is captured. -/
theorem C8_amended :
    (∀ host : String, check_ssl_mismatch host none = (false, none)) ∧
    (∀ (host cn : String) (sans : List String),
      ((check_ssl_mismatch host (some (cn, sans))).1 = true ↔
        ∀ name ∈ sans ++ (if cn == "" then [] else [cn]),
          sslNameMatches host name = false)) ∧
    (∀ (host cn : String) (sans : List String),
      (check_ssl_mismatch host (some (cn, sans))).2 = some cn) := by
  refine ⟨fun host => rfl, ?_, fun host cn sans => rfl⟩
  intro host cn sans
  simp only [check_ssl_mismatch, Bool.not_eq_true', List.any_eq_false, List.mem_append]
  constructor
  · intro h name hmem
    rcases hmem with hm | hm
    · simpa using h name (Or.inl hm)
    · simpa using h name (Or.inr hm)
  · intro h name hmem
    rcases hmem with hm | hm
    · simpa using h name (Or.inl hm)
    · simpa using h name (Or.inr hm)

/-- C8 witness: a host unrelated to the certificate names is reported as
a mismatch. -/
theorem C8_witness :
    (check_ssl_mismatch "x.other" (some ("", ["*.foo.bar"]))).1 = true :=
  (C8_amended.2.1 "x.other" "" ["*.foo.bar"]).mpr (by decide)

/-- C8 counterexample: under the claimed single-label wildcard rule, the
hosts foo.bar, a.b.foo.bar and evilfoo.bar all fail to match the SAN
*.foo.bar, so the claim predicts ssl_mismatch = true for them; the code's
suffix test accepts all three, and for foo.bar the recorded mismatch is
false — refuting the claimed matching rule. -/
theorem C8_counterexample :
    (check_ssl_mismatch "foo.bar" (some ("", ["*.foo.bar"]))).1 = false ∧
    specSslNameMatches "foo.bar" "*.foo.bar" = false ∧
    sslNameMatches "foo.bar" "*.foo.bar" = true ∧
    specSslNameMatches "a.b.foo.bar" "*.foo.bar" = false ∧
    sslNameMatches "a.b.foo.bar" "*.foo.bar" = true ∧
    specSslNameMatches "evilfoo.bar" "*.foo.bar" = false ∧
    sslNameMatches "evilfoo.bar" "*.foo.bar" = true := by
  decide

/-- The http_status input reaches validate_takeover only through
bestStatus: two findings differing only in http_status validate
identically whenever their bestStatus values agree. -/
theorem validate_http_only_via_bestStatus (f : SubdomainFinding) (body : String)
    (nx ns : Bool) (ch : List String) (ssl wc : Bool) (h1 h2 : Option Nat)
    (heq : bestStatus f.https_status h1 = bestStatus f.https_status h2) :
    validate_takeover { f with http_status := h1 } body nx ns ch ssl wc
      = validate_takeover { f with http_status := h2 } body nx ns ch ssl wc := by
  dsimp only [validate_takeover, confidencePreCap, validationEvidence]
  rw [heq]

/-- C9: the status code the expected-status signal compares is the HTTPS
status whenever one was captured (any actual HTTP status is nonzero, and
Python `or` falls through only on 0 or None), and the HTTP status only
otherwise; hence with both statuses present the entire validation — the
+20 signal included — is decided without consulting http_status. -/
theorem C9_claim :
    (∀ (f : SubdomainFinding) (body : String) (nx ns : Bool) (ch : List String)
      (ssl wc : Bool) (s : Nat) (h1 h2 : Option Nat),
      f.https_status = some s → s ≠ 0 →
      validate_takeover { f with http_status := h1 } body nx ns ch ssl wc
        = validate_takeover { f with http_status := h2 } body nx ns ch ssl wc) ∧
    (∀ (s : Nat) (http : Option Nat), s ≠ 0 → bestStatus (some s) http = some s) ∧
    (∀ http : Option Nat, bestStatus none http = http) := by
  refine ⟨?_, ?_, fun http => rfl⟩
  · intro f body nx ns ch ssl wc s h1 h2 hh hs
    apply validate_http_only_via_bestStatus
    rw [hh]
    simp [bestStatus, hs]
  · intro s http hs
    simp [bestStatus, hs]

/-- C9 witness: with HTTPS status 404 captured, replacing the HTTP status
by 500 or removing it entirely leaves the validation unchanged. -/
theorem C9_witness :
    validate_takeover { findingC9 with http_status := some 500 } "" false false [] false false
      = validate_takeover { findingC9 with http_status := none } "" false false [] false false :=
  C9_claim.1 findingC9 "" false false [] false false 404 (some 500) none rfl (by decide)

/-- A fingerprint entry is never satisfied against an empty header map. -/
theorem entryOk_nil (n e : String) : entryOk [] n e = false := rfl

/-- The filter-length test of the fingerprint loop equals the all test. -/
theorem filter_len_eq_all (p : String × String → Bool) (l : List (String × String)) :
    ((l.filter p).length == l.length) = l.all p := by
  rw [Bool.eq_iff_iff, beq_iff_eq, List.all_eq_true]
  constructor
  · intro h a ha
    have hs : List.Sublist (l.filter p) l := List.filter_sublist l
    have he := List.Sublist.eq_of_length hs h
    rw [← he] at ha
    exact (List.mem_filter.mp ha).2
  · intro h
    rw [List.filter_eq_self.mpr h]

/-- The provider loop equals a first-match search for a nonempty
fingerprint all of whose entries are satisfied. -/
theorem findFirstProvider_eq (headers : List (String × String)) :
    ∀ fps : List (String × List (String × String)),
      findFirstProvider headers fps
        = (fps.find? (fun pf =>
            !pf.2.isEmpty && pf.2.all (fun e => entryOk headers e.1 e.2))).map Prod.fst := by
  intro fps
  induction fps with
  | nil => rfl
  | cons pf rest ih =>
    obtain ⟨prov, fp⟩ := pf
    simp only [findFirstProvider]
    have hc : ((fp.filter (fun e => entryOk headers e.1 e.2)).length == fp.length
          && decide (0 < fp.length))
        = (!fp.isEmpty && fp.all (fun e => entryOk headers e.1 e.2)) := by
      rw [filter_len_eq_all]
      cases fp with
      | nil => rfl
      | cons a t => simp [Bool.and_comm]
    rw [hc]
    cases h : (!fp.isEmpty && fp.all (fun e => entryOk headers e.1 e.2)) with
    | true =>
      rw [if_pos rfl, List.find?_cons_of_pos rest h]
      rfl
    | false =>
      rw [if_neg (by simp), List.find?_cons_of_neg rest (by simp [h])]
      exact ih

/-- C10: header-fingerprint matching never identifies a provider from an
empty fingerprint (the find? predicate requires a nonempty one), a header
present with an empty string value never satisfies an entry — not even a
presence-only entry, as the first conjunct shows without any assumption on
the rest of the map — and for every headers mapping check_response_headers
returns the first-declared provider all of whose fingerprint headers are
present with truthy values containing the required substrings, or none. -/
theorem C10_claim :
    (∀ (name expected : String) (rest : List (String × String)),
      entryOk ((name, "") :: rest) name expected = false) ∧
    (∀ headers : List (String × String),
      check_response_headers headers
        = (HEADER_FINGERPRINTS.find? (fun pf =>
            !pf.2.isEmpty && pf.2.all (fun e => entryOk headers e.1 e.2))).map Prod.fst) := by
  constructor
  · intro name expected rest
    have hg : headerGet ((name, "") :: rest) name = "" := by
      unfold headerGet
      rw [List.find?_cons_of_pos rest (by simp)]
    simp [entryOk, hg]
  · intro headers
    cases headers with
    | nil => decide
    | cons a t =>
      simp only [check_response_headers, List.isEmpty_cons, Bool.false_eq_true,
        if_false]
      exact findFirstProvider_eq (a :: t) HEADER_FINGERPRINTS

end SubSentinel
